import Mathlib

/-!
Shallow embedding of the conversation-state core of the elevate-tg-bot
repository (files `bot/history.py`, `bot/ai_provider.py`,
`bot/openai_helper.py`), together with theorems settling the frozen
claims about its natural-language specification.

Conventions of the embedding:
* Python `dict`-shaped messages `{"role": r, "content": c}` become the
  `Message` structure.
* A `ChatHistory` object together with the persistence layer's stored
  copy of its conversation becomes `HistState` (in-memory `messages`
  plus the `persisted` sequence that `save_conversation` last wrote).
* Machine integers are modelled as `Int`/`Nat`; timestamps are integer
  minutes (Python `datetime` arithmetic on `timedelta(minutes=...)`).
* Fallible calls return `Except`/explicit outcome types.
-/

namespace ElevateBot

/-- A chat message: Python dict `{"role": ..., "content": ...}`
(`bot/history.py`, `ChatHistory.add`). -/
structure Message where
  role : String
  content : String
deriving DecidableEq, Repr

/-- Python slice `lst[-max_len:]` used by `ChatHistory.trim`
(`bot/history.py` line 25).  For `max_len > 0` this keeps the last
`max_len` elements (the whole list when it is shorter); for
`max_len = 0` the slice `lst[-0:]` is `lst[0:]`, the whole list. -/
def pySliceLast (max_len : Nat) (l : List Message) : List Message :=
  if max_len = 0 then l else l.drop (l.length - max_len)

/-- In-memory state of one `ChatHistory` plus the persistence layer's
stored copy for its `chat_id`: `messages` is `self.messages`,
`persisted` is what `self.persistence.save_conversation` last received
(`bot/history.py`). -/
structure HistState where
  messages : List Message
  persisted : List Message
deriving DecidableEq, Repr

namespace HistState

/-- `ChatHistory.add(role, content)` (`bot/history.py` lines 13-22):
appends the message and then calls `save()`, which hands the current
message list to `persistence.save_conversation`. -/
def add (h : HistState) (role content : String) : HistState :=
  let ms := h.messages ++ [⟨role, content⟩]
  { messages := ms, persisted := ms }

/-- `ChatHistory.clear()` (`bot/history.py` lines 39-44): empties the
message list and then calls `save()`. -/
def clear (_h : HistState) : HistState :=
  { messages := [], persisted := [] }

/-- `ChatHistory.trim(max_len)` (`bot/history.py` lines 24-25):
`self.messages = self.messages[-max_len:]`.  No `save()` call follows,
so the persisted copy is left as it was. -/
def trim (h : HistState) (max_len : Nat) : HistState :=
  { messages := pySliceLast max_len h.messages, persisted := h.persisted }

end HistState

/-- Python `m['content'].strip() == ''`: the content consists of
whitespace only (this includes the empty string). -/
def isBlank (s : String) : Bool :=
  s.data.all Char.isWhitespace

/-- `ChatHistory.replace_empty_messages(replacement)`
(`bot/history.py` lines 87-97): rebuilds every message, substituting
`replacement` for contents whose `strip()` is empty. -/
def replace_empty_messages (replacement : String) (msgs : List Message) :
    List Message :=
  msgs.map fun m =>
    { role := m.role, content := if isBlank m.content then replacement else m.content }

/-- Loop body of `extract_system_prompt` (`bot/history.py` lines
99-114 and `ClaudeProvider.extract_system_prompt`, `bot/ai_provider.py`
lines 244-261): a system message overwrites the extracted prompt (the
last one wins), any other message is appended to the remainder. -/
def extractStep (acc : List Message × Option String) (m : Message) :
    List Message × Option String :=
  if m.role = "system" then (acc.1, some m.content)
  else (acc.1 ++ [m], acc.2)

/-- `extract_system_prompt` (`bot/history.py` lines 99-114,
`bot/ai_provider.py` lines 244-261): partitions the messages into the
non-system remainder (in order) and the content of the last system
message, `none` when there is no system message. -/
def extract_system_prompt (msgs : List Message) :
    List Message × Option String :=
  msgs.foldl extractStep ([], none)

/-- Inner loop of `merge_consecutive_messages` (`bot/history.py` lines
116-132 and `bot/ai_provider.py` lines 263-282): `acc` is `merged[-1]`;
a message with the same role is folded into it with
`merged[-1]['content'] += f"\n{message['content']}"`, otherwise `acc`
is emitted and the message starts a new run. -/
def mergeAux (acc : Message) : List Message → List Message
  | [] => [acc]
  | m :: ms =>
    if m.role = acc.role then
      mergeAux { role := acc.role, content := acc.content ++ "\n" ++ m.content } ms
    else
      acc :: mergeAux m ms

/-- `merge_consecutive_messages` (`bot/history.py` lines 116-132,
`bot/ai_provider.py` lines 263-282): collapses runs of equal-role
messages, newline-joining their contents. -/
def merge_consecutive_messages : List Message → List Message
  | [] => []
  | m :: ms => mergeAux m ms

/-- Plain concatenation, in order, of the message contents. -/
def contentsConcat (msgs : List Message) : String :=
  String.join (msgs.map Message.content)

/-- Newline-joined concatenation of a list of strings
("a" :: "b" :: "c" ↦ "a\nb\nc"). -/
def joinStrings : List String → String
  | [] => ""
  | [s] => s
  | s :: s2 :: rest => s ++ "\n" ++ joinStrings (s2 :: rest)

/-- Newline-joined concatenation, in order, of the message contents. -/
def contentsJoined (msgs : List Message) : String :=
  joinStrings (msgs.map Message.content)

/-! ## Backend providers (`bot/ai_provider.py`) -/

/-- The request `OpenAIProvider.create_completion` dispatches
(`bot/ai_provider.py` lines 225-231): `model=self.model`,
`messages=messages` (the float `temperature=0.4` is outside the
embedded data).  The constructor stores `self.system_prompt`
(line 219), but `create_completion` never reads it. -/
structure OpenAIRequest where
  model : String
  messages : List Message
deriving DecidableEq, Repr

/-- `OpenAIProvider.create_completion(messages)` (`bot/ai_provider.py`
lines 225-231), as the request it sends: the message list is passed
through unchanged and the stored `system_prompt` is unused. -/
def openAICreateCompletion (_system_prompt : String) (model : String)
    (messages : List Message) : OpenAIRequest :=
  { model := model, messages := messages }

/-- The request `ClaudeProvider.create_completion` dispatches
(`bot/ai_provider.py` lines 290-295): `model`, `max_tokens`,
`messages` and the side-channel `system` string. -/
structure ClaudeRequest where
  model : String
  max_tokens : Nat
  messages : List Message
  system : String
deriving DecidableEq, Repr

/-- `ClaudeProvider.create_completion(messages)` (`bot/ai_provider.py`
lines 284-295), as the request it sends: extract the system prompt,
merge consecutive same-role messages, and compute
`system_prompt = extracted_system_prompt or self.system_prompt`
(Python `or`: the configured prompt is used when the extracted value is
`None` **or** the empty string). -/
def claudeCreateCompletion (self_system_prompt : String) (model : String)
    (max_tokens : Nat) (messages : List Message) : ClaudeRequest :=
  let extracted := extract_system_prompt messages
  let merged := merge_consecutive_messages extracted.1
  let system :=
    match extracted.2 with
    | some s => if s = "" then self_system_prompt else s
    | none => self_system_prompt
  { model := model, max_tokens := max_tokens, messages := merged, system := system }

/-! ## Orchestration core (`bot/openai_helper.py`, class `AIHelper`) -/

/-- The configuration fields of `AIHelper.config` that the turn
pipeline reads.  `maxModelTokens` stands for the value of
`self.__max_model_tokens()` for the configured model
(`bot/openai_helper.py` lines 249-267); `maxConversationAgeMinutes`
is `config['max_conversation_age_minutes']`. -/
structure Config where
  max_tokens : Nat
  max_history_size : Nat
  maxModelTokens : Nat
  max_conversation_age_minutes : Int
deriving Repr

/-- The mutable state of an `AIHelper` instance plus the persistence
store: `conv` is `self.conv` (`chat_id ↦` message list of its
`ChatHistory`, `none` when the key is absent), `lastUpdated` is
`self.last_updated` (timestamps in integer minutes), and `store` maps a
`chat_id` to the conversation the Persistence Port holds for it
(`load_conversation` returns `[]`-defaulting data, never "not found"). -/
structure HelperState where
  conv : Int → Option (List Message)
  lastUpdated : Int → Option Int
  store : Int → List Message

/-- Replace the in-memory conversation of one chat id. -/
def setConv (st : HelperState) (chat_id : Int) (msgs : List Message) :
    HelperState :=
  { st with conv := fun i => if i = chat_id then some msgs else st.conv i }

/-- Replace the persisted conversation of one chat id
(`save_conversation`, full-replace semantics). -/
def setStore (st : HelperState) (chat_id : Int) (msgs : List Message) :
    HelperState :=
  { st with store := fun i => if i = chat_id then msgs else st.store i }

/-- `self.conv[chat_id].add(role, content)` seen from the helper state:
append, then `save()` hands the new list to the Persistence Port
(`bot/history.py` lines 13-22). -/
def convAdd (st : HelperState) (chat_id : Int) (role content : String) :
    HelperState :=
  let msgs := (st.conv chat_id).getD [] ++ [⟨role, content⟩]
  setStore (setConv st chat_id msgs) chat_id msgs

/-- `self.conv[chat_id].clear()`: empty the list, then `save()`
(`bot/history.py` lines 39-44). -/
def convClear (st : HelperState) (chat_id : Int) : HelperState :=
  setStore (setConv st chat_id []) chat_id []

/-- `self.conv[chat_id].trim(max_len)`: slice the list; no `save()`
(`bot/history.py` lines 24-25). -/
def convTrim (st : HelperState) (chat_id : Int) (max_len : Nat) :
    HelperState :=
  setConv st chat_id (pySliceLast max_len ((st.conv chat_id).getD []))

/-- `AIHelper.init_conversation(chat_id)` (`bot/openai_helper.py`
lines 195-200): only when `chat_id not in self.conv` does it build a
`ChatHistory`, whose constructor `load()`s the stored conversation
(`bot/history.py` lines 7-11, 33-37); otherwise it does nothing. -/
def init_conversation (st : HelperState) (chat_id : Int) : HelperState :=
  if (st.conv chat_id).isNone then setConv st chat_id (st.store chat_id)
  else st

/-- `AIHelper.reset_conversation(chat_id)` (`bot/openai_helper.py`
lines 203-209): ensure the `ChatHistory` exists, then `clear()` it. -/
def reset_conversation (st : HelperState) (chat_id : Int) : HelperState :=
  convClear (init_conversation st chat_id) chat_id

/-- `AIHelper.__max_age_reached(chat_id)` (`bot/openai_helper.py`
lines 211-222): false when the chat id has no recorded activity,
otherwise `last_updated < now - timedelta(minutes=max_age_minutes)`
with time in integer minutes. -/
def maxAgeReached (cfg : Config) (st : HelperState) (chat_id : Int)
    (now : Int) : Bool :=
  match st.lastUpdated chat_id with
  | none => false
  | some t => decide (t < now - cfg.max_conversation_age_minutes)

/-- `AIHelper.__summarise(conversation)` (`bot/openai_helper.py` lines
224-247) as shipped: the body is commented out, the function logs
`_summarize is not implemented!` and returns the empty string.  It
returns normally — it does not raise. -/
def summariseStub (_conversation : List Message) : Except String String :=
  Except.ok ""

/-- Outcome of one raw backend `create_completion` call, the
exception taxonomy of `bot/openai_helper.py` lines 180-187. -/
inductive BackendOutcome where
  | ok (answer : String) (tokens : Nat)
  | rateLimitError (msg : String)
  | badRequestError (msg : String)
  | otherError (msg : String)
deriving DecidableEq, Repr

/-- Result of one attempt of `__common_get_chat_response` as its
caller (the `tenacity` decorator, then `get_chat_response`) sees it. -/
inductive AttemptResult where
  | ok (answer : String) (tokens : Nat)
  | rateLimited (msg : String)
  | wrapped (localizedKey : String) (msg : String)
deriving DecidableEq, Repr

/-- The `except` clauses of `__common_get_chat_response`
(`bot/openai_helper.py` lines 180-187): `openai.RateLimitError` is
re-raised as-is, `openai.BadRequestError` is wrapped with the
localized `openai_invalid` text, any other exception with the
localized `error` text. -/
def exceptHandlers : BackendOutcome → AttemptResult
  | BackendOutcome.ok a t => AttemptResult.ok a t
  | BackendOutcome.rateLimitError m => AttemptResult.rateLimited m
  | BackendOutcome.badRequestError m => AttemptResult.wrapped "openai_invalid" m
  | BackendOutcome.otherError m => AttemptResult.wrapped "error" m

/-- Body of `AIHelper.__common_get_chat_response(chat_id, query)`
(`bot/openai_helper.py` lines 142-187), one attempt:
1. `if chat_id not in self.conv or self.__max_age_reached(chat_id):
   self.init_conversation(chat_id)`;
2. `self.last_updated[chat_id] = now`;
3. `self.conv[chat_id].add(human_role, query)`;
4. token/size thresholds; on breach, try `__summarise` on
   `self.conv[chat_id][:-1]`: on a normal return, reset the
   conversation, add the summary under the AI role and re-add the
   query; if it raised, `trim(max_history_size)`;
5. dispatch `provider.create_completion` on the current messages,
   mapping exceptions through `exceptHandlers`.
`countTokens` abstracts `self.__count_tokens`, `summarise` the
`__summarise` coroutine, `backend` the provider call. -/
def commonBody (cfg : Config) (countTokens : List Message → Nat)
    (summarise : List Message → Except String String)
    (backend : List Message → BackendOutcome)
    (humanRole aiRole : String) (chat_id : Int) (query : String)
    (now : Int) (st : HelperState) : AttemptResult × HelperState :=
  let st1 := if (st.conv chat_id).isNone || maxAgeReached cfg st chat_id now
             then init_conversation st chat_id else st
  let st2 := { st1 with
               lastUpdated := fun i => if i = chat_id then some now
                                       else st1.lastUpdated i }
  let st3 := convAdd st2 chat_id humanRole query
  let msgs := (st3.conv chat_id).getD []
  let token_count := countTokens msgs
  let exceeded_max_tokens : Bool :=
    decide (token_count + cfg.max_tokens > cfg.maxModelTokens)
  let exceeded_max_history_size : Bool :=
    decide (msgs.length > cfg.max_history_size)
  let st4 :=
    if exceeded_max_tokens || exceeded_max_history_size then
      match summarise msgs.dropLast with
      | Except.ok summary =>
          let stA := reset_conversation st3 chat_id
          let stB := convAdd stA chat_id aiRole summary
          convAdd stB chat_id humanRole query
      | Except.error _ => convTrim st3 chat_id cfg.max_history_size
    else st3
  let finalMsgs := (st4.conv chat_id).getD []
  (exceptHandlers (backend finalMsgs), st4)

/-- `wait_fixed(20)` of the retry decorator
(`bot/openai_helper.py` line 139). -/
def retryWaitUnits : Nat := 20

/-- `stop_after_attempt(3)` of the retry decorator
(`bot/openai_helper.py` line 140). -/
def retryStopAfterAttempts : Nat := 3

/-- The `tenacity` decorator
`@retry(reraise=True, retry=retry_if_exception_type(openai.RateLimitError),
wait=wait_fixed(20), stop=stop_after_attempt(3))`
(`bot/openai_helper.py` lines 136-141) over a stateful attempt body:
`i` numbers the attempt, `remaining` counts attempts still allowed.  A
`rateLimited` outcome with attempts remaining sleeps `retryWaitUnits`
and retries; on exhaustion (`reraise=True`) the last exception is
re-raised as-is; any other outcome is returned at once.  The third
component collects the sleeps performed. -/
def retryLoop (body : Nat → HelperState → AttemptResult × HelperState) :
    Nat → Nat → HelperState → AttemptResult × HelperState × List Nat
  | i, 0, st =>
    let r := body i st
    (r.1, r.2, [])
  | i, remaining + 1, st =>
    match body i st with
    | (AttemptResult.rateLimited e, st2) =>
        if remaining = 0 then (AttemptResult.rateLimited e, st2, [])
        else
          let r := retryLoop body (i + 1) remaining st2
          (r.1, r.2.1, retryWaitUnits :: r.2.2)
    | (r, st2) => (r, st2, [])

/-- `AIHelper.get_chat_response(chat_id, query)`
(`bot/openai_helper.py` lines 122-134): run the retried
`__common_get_chat_response`; on success append the answer under the
provider's AI role (`self.conv[chat_id].add(role, answer)`, which
persists) and return it, otherwise let the exception propagate.  The
backend may behave differently on each attempt (`backend i`). -/
def get_chat_response (cfg : Config) (countTokens : List Message → Nat)
    (summarise : List Message → Except String String)
    (backend : Nat → List Message → BackendOutcome)
    (humanRole aiRole : String) (chat_id : Int) (query : String)
    (now : Int) (st : HelperState) :
    AttemptResult × HelperState × List Nat :=
  let r := retryLoop
    (fun i s => commonBody cfg countTokens summarise (backend i)
      humanRole aiRole chat_id query now s)
    0 retryStopAfterAttempts st
  match r.1 with
  | AttemptResult.ok answer tokens =>
      (AttemptResult.ok answer tokens, convAdd r.2.1 chat_id aiRole answer, r.2.2)
  | other => (other, r.2.1, r.2.2)

/-! ## Helper lemmas about the message-normalization operations -/

theorem mergeAux_ne_nil (a : Message) (l : List Message) :
    mergeAux a l ≠ [] := by
  induction l generalizing a with
  | nil => simp [mergeAux]
  | cons m ms ih =>
    rw [mergeAux]
    by_cases h : m.role = a.role
    · rw [if_pos h]; exact ih _
    · rw [if_neg h]; exact List.cons_ne_nil _ _

theorem mergeAux_head_role (a : Message) (l : List Message) :
    ∃ c t, mergeAux a l = ⟨a.role, c⟩ :: t := by
  induction l generalizing a with
  | nil => exact ⟨a.content, [], rfl⟩
  | cons m ms ih =>
    by_cases h : m.role = a.role
    · obtain ⟨c, t, ht⟩ :=
        ih ⟨a.role, a.content ++ "\n" ++ m.content⟩
      exact ⟨c, t, by rw [mergeAux, if_pos h]; exact ht⟩
    · exact ⟨a.content, mergeAux m ms, by rw [mergeAux, if_neg h]⟩

theorem mergeAux_chain (a : Message) (l : List Message) :
    List.Chain' (fun x y : Message => x.role ≠ y.role) (mergeAux a l) := by
  induction l generalizing a with
  | nil => simp [mergeAux]
  | cons m ms ih =>
    rw [mergeAux]
    by_cases h : m.role = a.role
    · rw [if_pos h]; exact ih _
    · rw [if_neg h]
      refine List.chain'_cons'.mpr ⟨?_, ih m⟩
      intro y hy
      obtain ⟨c, t, ht⟩ := mergeAux_head_role m ms
      rw [ht] at hy
      simp only [List.head?_cons, Option.mem_def, Option.some.injEq] at hy
      rw [← hy]
      exact fun e => h e.symm

theorem mergeAux_roles_subset (a : Message) (l : List Message) :
    ∀ x ∈ mergeAux a l, x.role = a.role ∨ x.role ∈ l.map Message.role := by
  induction l generalizing a with
  | nil =>
    intro x hx
    simp only [mergeAux, List.mem_singleton] at hx
    exact Or.inl (hx ▸ rfl)
  | cons m ms ih =>
    intro x hx
    rw [mergeAux] at hx
    by_cases h : m.role = a.role
    · rw [if_pos h] at hx
      rcases ih _ x hx with h1 | h1
      · exact Or.inl h1
      · exact Or.inr (List.mem_cons_of_mem _ h1)
    · rw [if_neg h] at hx
      rcases List.mem_cons.mp hx with rfl | hx'
      · exact Or.inl rfl
      · rcases ih m x hx' with h1 | h1
        · exact Or.inr (by rw [List.map_cons, h1]; exact List.mem_cons_self _ _)
        · exact Or.inr (List.mem_cons_of_mem _ h1)

theorem joinStrings_cons_ne_nil (x : String) (l : List String) (h : l ≠ []) :
    joinStrings (x :: l) = x ++ "\n" ++ joinStrings l := by
  cases l with
  | nil => exact absurd rfl h
  | cons => rfl

theorem joinStrings_glue (x y : String) (rest : List String) :
    joinStrings ((x ++ "\n" ++ y) :: rest)
      = x ++ "\n" ++ joinStrings (y :: rest) := by
  cases rest with
  | nil => rfl
  | cons r rs =>
    show x ++ "\n" ++ y ++ "\n" ++ joinStrings (r :: rs)
      = x ++ "\n" ++ (y ++ "\n" ++ joinStrings (r :: rs))
    simp only [String.append_assoc]

theorem mergeAux_joined (a : Message) (l : List Message) :
    joinStrings ((mergeAux a l).map Message.content)
      = joinStrings (a.content :: l.map Message.content) := by
  induction l generalizing a with
  | nil => rfl
  | cons m ms ih =>
    rw [mergeAux]
    by_cases h : m.role = a.role
    · rw [if_pos h, ih ⟨a.role, a.content ++ "\n" ++ m.content⟩, List.map_cons]
      exact joinStrings_glue a.content m.content (ms.map Message.content)
    · rw [if_neg h, List.map_cons, List.map_cons]
      have hne : (mergeAux m ms).map Message.content ≠ [] := by
        intro hc
        exact mergeAux_ne_nil m ms (List.map_eq_nil_iff.mp hc)
      rw [joinStrings_cons_ne_nil _ _ hne, ih m]
      rfl

theorem extract_foldl_fst (msgs : List Message)
    (acc : List Message × Option String) :
    (msgs.foldl extractStep acc).1
      = acc.1 ++ msgs.filter (fun m => !(m.role == "system")) := by
  induction msgs generalizing acc with
  | nil => simp
  | cons m ms ih =>
    rw [List.foldl_cons, ih]
    by_cases h : m.role = "system"
    · rw [List.filter_cons_of_neg (by simp [h])]
      rw [extractStep, if_pos h]
    · rw [List.filter_cons_of_pos (by simp [h])]
      rw [extractStep, if_neg h]
      simp

theorem extract_no_system (msgs : List Message) :
    ∀ m ∈ (extract_system_prompt msgs).1, m.role ≠ "system" := by
  intro m hm
  unfold extract_system_prompt at hm
  rw [extract_foldl_fst] at hm
  simp only [List.nil_append] at hm
  have := List.of_mem_filter hm
  simpa using this

/-! ## Helper lemmas about the turn pipeline and its retry loop -/

/-- One attempt of the turn body always ends in a dispatch: its result
is the handled outcome of the backend call on the final (possibly
compacted) message list, which is exactly the in-memory conversation
of the post-state. -/
theorem commonBody_fst (cfg : Config) (countTokens : List Message → Nat)
    (summarise : List Message → Except String String)
    (backend : List Message → BackendOutcome) (humanRole aiRole : String)
    (chat_id : Int) (query : String) (now : Int) (st : HelperState) :
    (commonBody cfg countTokens summarise backend humanRole aiRole
        chat_id query now st).1
      = exceptHandlers (backend
          (((commonBody cfg countTokens summarise backend humanRole aiRole
              chat_id query now st).2.conv chat_id).getD [])) := rfl

/-- A handled outcome is a success only when the backend call was. -/
theorem exceptHandlers_not_ok (o : BackendOutcome)
    (h : ∀ a t, o ≠ BackendOutcome.ok a t) :
    ∀ a t, exceptHandlers o ≠ AttemptResult.ok a t := by
  cases o with
  | ok a t => exact absurd rfl (h a t)
  | rateLimitError m => intro a t hc; exact AttemptResult.noConfusion hc
  | badRequestError m => intro a t hc; exact AttemptResult.noConfusion hc
  | otherError m => intro a t hc; exact AttemptResult.noConfusion hc

/-- Retry loop, base equation: with no attempts remaining beyond this
one, the attempt's outcome is returned as-is with no sleeps. -/
theorem retryLoop_zero (body : Nat → HelperState → AttemptResult × HelperState)
    (i : Nat) (st : HelperState) :
    retryLoop body i 0 st = ((body i st).1, (body i st).2, []) := rfl

/-- Retry loop: a non-rate-limited attempt outcome is returned at
once, with no sleeps. -/
theorem retryLoop_done (body : Nat → HelperState → AttemptResult × HelperState)
    (i n : Nat) (st : HelperState)
    (h : ∀ e, (body i st).1 ≠ AttemptResult.rateLimited e) :
    retryLoop body i (n + 1) st = ((body i st).1, (body i st).2, []) := by
  rw [retryLoop]
  rcases hbody : body i st with ⟨r, st2⟩
  rw [hbody] at h
  cases r with
  | rateLimited e => exact absurd rfl (h e)
  | ok a t => rfl
  | wrapped k m => rfl

/-- Retry loop: a rate-limited attempt with at least one attempt still
allowed sleeps `retryWaitUnits` and retries on the attempt's
post-state. -/
theorem retryLoop_retry (body : Nat → HelperState → AttemptResult × HelperState)
    (i n : Nat) (st : HelperState) (e : String)
    (h : (body i st).1 = AttemptResult.rateLimited e) (hn : n ≠ 0) :
    retryLoop body i (n + 1) st
      = ((retryLoop body (i + 1) n (body i st).2).1,
         (retryLoop body (i + 1) n (body i st).2).2.1,
         retryWaitUnits :: (retryLoop body (i + 1) n (body i st).2).2.2) := by
  rw [retryLoop]
  rcases hbody : body i st with ⟨r, st2⟩
  rw [hbody] at h
  simp only at h
  subst h
  simp [hn]

/-- Retry loop: a rate-limited attempt with no attempts remaining
re-raises the rate-limit outcome as-is (`reraise=True`). -/
theorem retryLoop_exhausted (body : Nat → HelperState → AttemptResult × HelperState)
    (i : Nat) (st : HelperState) (e : String)
    (h : (body i st).1 = AttemptResult.rateLimited e) :
    retryLoop body i 1 st = (AttemptResult.rateLimited e, (body i st).2, []) := by
  rw [retryLoop]
  rcases hbody : body i st with ⟨r, st2⟩
  rw [hbody] at h
  simp only at h
  subst h
  simp

/-- The outcome and post-state of the retry loop are those of one of
the attempts it ran. -/
theorem retryLoop_exists_attempt
    (body : Nat → HelperState → AttemptResult × HelperState) :
    ∀ (n i : Nat) (st : HelperState), ∃ (j : Nat) (stj : HelperState),
      (retryLoop body i n st).1 = (body j stj).1 ∧
      (retryLoop body i n st).2.1 = (body j stj).2 := by
  intro n
  induction n with
  | zero => intro i st; exact ⟨i, st, rfl, rfl⟩
  | succ n ih =>
    intro i st
    rcases hbody : body i st with ⟨r, st2⟩
    cases r with
    | rateLimited e =>
      by_cases hn : n = 0
      · subst hn
        refine ⟨i, st, ?_, ?_⟩ <;>
          rw [retryLoop_exhausted body i st e (by rw [hbody]), hbody]
      · obtain ⟨j, stj, h1, h2⟩ := ih (i + 1) (body i st).2
        refine ⟨j, stj, ?_, ?_⟩ <;>
          rw [retryLoop_retry body i n st e (by rw [hbody]) hn]
        · exact h1
        · exact h2
    | ok a t =>
      refine ⟨i, st, ?_, ?_⟩ <;>
        rw [retryLoop_done body i n st (by rw [hbody]; simp)]
    | wrapped k m =>
      refine ⟨i, st, ?_, ?_⟩ <;>
        rw [retryLoop_done body i n st (by rw [hbody]; simp)]

/-- With the shipped summariser stub (which always returns normally),
every attempt of the turn body leaves the appended user turn as the
last in-memory message and leaves the persisted conversation equal to
the in-memory one (the unreachable trim fallback is the only
non-saving path). -/
theorem commonBody_post (cfg : Config) (countTokens : List Message → Nat)
    (backend : List Message → BackendOutcome) (humanRole aiRole : String)
    (chat_id : Int) (query : String) (now : Int) (st : HelperState) :
    (((commonBody cfg countTokens summariseStub backend humanRole aiRole
        chat_id query now st).2.conv chat_id).getD []).getLast?
      = some ⟨humanRole, query⟩ ∧
    (commonBody cfg countTokens summariseStub backend humanRole aiRole
        chat_id query now st).2.store chat_id
      = ((commonBody cfg countTokens summariseStub backend humanRole aiRole
          chat_id query now st).2.conv chat_id).getD [] := by
  simp only [commonBody, summariseStub]
  split <;> split <;> constructor <;>
    simp [convAdd, setConv, setStore, reset_conversation, init_conversation,
      convClear, List.getLast?_concat]

/-- `get_chat_response` returns the retried body's outcome unchanged
(on success it additionally appends the answer), and its sleep
schedule is the retry loop's. -/
theorem get_chat_response_fst_delays (cfg : Config)
    (countTokens : List Message → Nat)
    (summarise : List Message → Except String String)
    (backend : Nat → List Message → BackendOutcome)
    (humanRole aiRole : String) (chat_id : Int) (query : String)
    (now : Int) (st : HelperState) :
    (get_chat_response cfg countTokens summarise backend humanRole aiRole
        chat_id query now st).1
      = (retryLoop (fun i s => commonBody cfg countTokens summarise (backend i)
          humanRole aiRole chat_id query now s) 0 retryStopAfterAttempts st).1 ∧
    (get_chat_response cfg countTokens summarise backend humanRole aiRole
        chat_id query now st).2.2
      = (retryLoop (fun i s => commonBody cfg countTokens summarise (backend i)
          humanRole aiRole chat_id query now s) 0 retryStopAfterAttempts st).2.2 := by
  unfold get_chat_response
  rcases h : (retryLoop (fun i s => commonBody cfg countTokens summarise
      (backend i) humanRole aiRole chat_id query now s)
      0 retryStopAfterAttempts st).1 with ⟨a, t⟩ | ⟨e⟩ | ⟨k, m⟩ <;>
    simp [h]

/-! ## Theorems -/

/-- Claim C1.  For every `ChatHistory`, each of the three mutating
operations `add`, `clear`, `trim` is immediately followed by a
synchronous `save_conversation`, so after any single mutation the
persisted state equals the in-memory message sequence.
REFUTED: `trim` performs no save.  Starting from a state whose
in-memory and persisted copies agree on two messages, `trim 1` leaves
the persisted copy at two messages while memory holds one. -/
theorem trim_not_persisted_cex :
    (HistState.trim
        { messages := [⟨"user", "a"⟩, ⟨"user", "b"⟩],
          persisted := [⟨"user", "a"⟩, ⟨"user", "b"⟩] } 1).persisted ≠
      (HistState.trim
        { messages := [⟨"user", "a"⟩, ⟨"user", "b"⟩],
          persisted := [⟨"user", "a"⟩, ⟨"user", "b"⟩] } 1).messages := by
  decide

/-- Claim C1, amended.  `add` and `clear` are each immediately followed
by a synchronous save through the Persistence Port, so after either of
them the persisted state equals the in-memory message sequence; `trim`
saves nothing and leaves the persisted state exactly as it was. -/
theorem mutations_persistence_amended (h : HistState)
    (role content : String) (n : Nat) :
    (h.add role content).persisted = (h.add role content).messages ∧
    h.clear.persisted = h.clear.messages ∧
    (h.trim n).persisted = h.persisted :=
  ⟨rfl, rfl, rfl⟩

/-- Claim C2.  A stale session-registry entry is discarded on next
access and recreated by reloading from the Persistence Port before the
user turn is appended.
CODE BUG: with `chat_id = 1` in `self.conv` holding `[{user,"old"}]`,
the store holding `[{assistant,"stored"}]`, last activity at minute 0,
`now = 100` and a 10-minute maximum age, `__max_age_reached` is true,
yet the turn keeps the stale in-memory history (`init_conversation`
returns without loading when the chat id is already present; the call
site carries a `# TODO: load` marker): the resulting history is the
stale one plus the query, not the reloaded one plus the query. -/
theorem stale_session_not_reloaded_bug :
    maxAgeReached
        { max_tokens := 10, max_history_size := 100,
          maxModelTokens := 10000, max_conversation_age_minutes := 10 }
        { conv := fun i => if i = 1 then some [⟨"user", "old"⟩] else none,
          lastUpdated := fun i => if i = 1 then some 0 else none,
          store := fun i => if i = 1 then [⟨"assistant", "stored"⟩] else [] }
        1 100 = true ∧
    (commonBody
        { max_tokens := 10, max_history_size := 100,
          maxModelTokens := 10000, max_conversation_age_minutes := 10 }
        (fun _ => 0) summariseStub (fun _ => BackendOutcome.ok "a" 1)
        "user" "assistant" 1 "q" 100
        { conv := fun i => if i = 1 then some [⟨"user", "old"⟩] else none,
          lastUpdated := fun i => if i = 1 then some 0 else none,
          store := fun i => if i = 1 then [⟨"assistant", "stored"⟩] else [] }).2.conv 1
      = some [⟨"user", "old"⟩, ⟨"user", "q"⟩] ∧
    some [⟨"user", "old"⟩, ⟨"user", "q"⟩] ≠
      some [(⟨"assistant", "stored"⟩ : Message), ⟨"user", "q"⟩] := by
  refine ⟨rfl, ?_, by decide⟩
  rfl

/-- Claim C4.  `OpenAIProvider.create_completion` sends the provider's
configured system prompt as the first message of the request,
unconditionally.
REFUTED: the request passes the message list through unchanged and
never reads the stored system prompt; with configured prompt `"SYS"`
and input `[{user,"hi"}]` the first dispatched message is
`{user,"hi"}`, not a system-prompt message. -/
theorem openai_no_system_prompt_cex :
    (openAICreateCompletion "SYS" "gpt-4o" [⟨"user", "hi"⟩]).messages.head?
        = some ⟨"user", "hi"⟩ ∧
    (some (⟨"user", "hi"⟩ : Message)) ≠ some (⟨"system", "SYS"⟩ : Message) := by
  decide

/-- Claim C4, amended.  `OpenAIProvider.create_completion` dispatches
the input message sequence unchanged — every role and content exactly
as given, the configured system prompt not injected (it is stored at
construction but never read by `create_completion`). -/
theorem openai_messages_unchanged_amended (system_prompt model : String)
    (messages : List Message) :
    (openAICreateCompletion system_prompt model messages).messages = messages :=
  rfl

/-- Claim C8.  For all `n` and history length `m`: `trim n` yields the
last `n` messages when `m > n` and is a no-op when `m ≤ n`.
REFUTED at `n = 0`: Python's `self.messages[-0:]` is the whole list,
so `trim 0` on a one-message history keeps the message instead of
yielding the last zero messages. -/
theorem trim_zero_cex :
    (HistState.trim { messages := [⟨"user", "a"⟩], persisted := [⟨"user", "a"⟩] } 0).messages
      = [⟨"user", "a"⟩] ∧
    ([(⟨"user", "a"⟩ : Message)] : List Message) ≠ [] := by
  decide

/-- Claim C8, amended.  For `n > 0`, `trim n` on a history longer than
`n` keeps exactly the last `n` messages in their original relative
order (the history splits as an unchanged suffix of length `n`); on a
history of length `≤ n` it is a no-op; and `trim 0` is also a no-op
(Python slice `[-0:]`). -/
theorem trim_amended (n : Nat) (h : HistState) :
    (0 < n → n < h.messages.length →
      (h.trim n).messages.length = n ∧
      h.messages
        = h.messages.take (h.messages.length - n) ++ (h.trim n).messages) ∧
    (h.messages.length ≤ n → (h.trim n).messages = h.messages) ∧
    (h.trim 0).messages = h.messages := by
  unfold HistState.trim pySliceLast
  refine ⟨fun hn hlen => ?_, fun hle => ?_, by simp⟩
  · have hne : n ≠ 0 := Nat.pos_iff_ne_zero.mp hn
    simp only [hne, if_false]
    constructor
    · rw [List.length_drop]
      exact Nat.sub_sub_self (Nat.le_of_lt hlen)
    · exact (List.take_append_drop _ _).symm
  · by_cases hz : n = 0
    · simp [hz]
    · simp only [hz, if_false]
      rw [Nat.sub_eq_zero_of_le hle, List.drop_zero]

/-- Witness for the amended C8 at `n = 2` on a three-message history:
`trim 2` keeps the last two messages, and both no-op cases check. -/
theorem trim_amended_witness :
    (HistState.trim
        { messages := [⟨"user", "a"⟩, ⟨"user", "b"⟩, ⟨"user", "c"⟩],
          persisted := [] } 2).messages.length = 2 ∧
    [(⟨"user", "a"⟩ : Message), ⟨"user", "b"⟩, ⟨"user", "c"⟩]
      = [(⟨"user", "a"⟩ : Message), ⟨"user", "b"⟩, ⟨"user", "c"⟩].take 1 ++
        (HistState.trim
          { messages := [⟨"user", "a"⟩, ⟨"user", "b"⟩, ⟨"user", "c"⟩],
            persisted := [] } 2).messages := by
  have h := trim_amended 2
    { messages := [⟨"user", "a"⟩, ⟨"user", "b"⟩, ⟨"user", "c"⟩], persisted := [] }
  exact h.1 (by decide) (by decide)

/-- Claim C9.  `replace_empty_messages` preserves length and every
role, and every message with non-empty content keeps its content.
REFUTED: the source replaces contents whose `strip()` is empty, so the
non-empty whitespace content `" "` is replaced by the placeholder. -/
theorem replace_whitespace_cex :
    replace_empty_messages "..." [⟨"user", " "⟩] = [⟨"user", "..."⟩] ∧
    (" " : String) ≠ "" ∧ ("..." : String) ≠ " " := by
  decide

/-- Claim C9, amended.  `replace_empty_messages` preserves the length
and the role at every position, and every message whose content is not
whitespace-only (Python `content.strip() != ''`) keeps its content;
a non-empty but whitespace-only content is replaced like the empty
one. -/
theorem replace_frame_amended (replacement : String) (msgs : List Message) :
    (replace_empty_messages replacement msgs).length = msgs.length ∧
    (∀ i : Nat,
      ((replace_empty_messages replacement msgs)[i]?).map Message.role
        = (msgs[i]?).map Message.role) ∧
    (∀ i : Nat, ∀ m : Message, msgs[i]? = some m →
      isBlank m.content = false →
      (replace_empty_messages replacement msgs)[i]? = some m) := by
  unfold replace_empty_messages
  refine ⟨List.length_map _ _, fun i => ?_, fun i m hm hblank => ?_⟩
  · rw [List.getElem?_map]
    cases msgs[i]? <;> rfl
  · rw [List.getElem?_map, hm, Option.map_some', hblank]
    simp

/-- Witness for the amended C9 on `[{user,"hi"}, {assistant, ""}]`
with placeholder `"..."` at position `0`. -/
theorem replace_frame_amended_witness :
    (replace_empty_messages "..." [⟨"user", "hi"⟩, ⟨"assistant", ""⟩]).length = 2 ∧
    ((replace_empty_messages "..." [⟨"user", "hi"⟩, ⟨"assistant", ""⟩])[0]?).map
        Message.role
      = (([(⟨"user", "hi"⟩ : Message), ⟨"assistant", ""⟩])[0]?).map Message.role ∧
    (replace_empty_messages "..." [⟨"user", "hi"⟩, ⟨"assistant", ""⟩])[0]?
      = some ⟨"user", "hi"⟩ := by
  have h := replace_frame_amended "..." [⟨"user", "hi"⟩, ⟨"assistant", ""⟩]
  exact ⟨h.1, h.2.1 0, h.2.2 0 ⟨"user", "hi"⟩ rfl (by decide)⟩

/-- Claim C7.  `merge_consecutive_messages` leaves no two adjacent
equal-role messages, and the plain concatenation of the output
contents equals the plain concatenation of the input contents.
REFUTED in its second half: merging inserts a newline between the
joined contents, so on `[{user,"a"}, {user,"b"}]` the output
concatenation is `"a\nb"` while the input concatenation is `"ab"`. -/
theorem merge_concat_cex :
    merge_consecutive_messages [⟨"user", "a"⟩, ⟨"user", "b"⟩]
      = [⟨"user", "a\nb"⟩] ∧
    contentsConcat (merge_consecutive_messages [⟨"user", "a"⟩, ⟨"user", "b"⟩])
      ≠ contentsConcat [⟨"user", "a"⟩, ⟨"user", "b"⟩] ∧
    ([(⟨"user", "a"⟩ : Message), ⟨"user", "b"⟩] : List Message) ≠ [] := by
  refine ⟨by decide, ?_, by decide⟩
  decide

/-- Claim C7, amended.  For every non-empty message sequence, the
output of `merge_consecutive_messages` has no two adjacent messages
with equal role, and the **newline-joined** concatenation in order of
the output contents is identical to the newline-joined concatenation
of the input contents (plain concatenation differs by the inserted
newlines). -/
theorem merge_joined_amended (msgs : List Message) (h : msgs ≠ []) :
    List.Chain' (fun x y : Message => x.role ≠ y.role)
      (merge_consecutive_messages msgs) ∧
    contentsJoined (merge_consecutive_messages msgs) = contentsJoined msgs := by
  cases msgs with
  | nil => exact absurd rfl h
  | cons m ms =>
    refine ⟨mergeAux_chain m ms, ?_⟩
    unfold merge_consecutive_messages contentsJoined
    rw [mergeAux_joined, List.map_cons]

/-- Witness for the amended C7 on `[{user,"a"}, {user,"b"},
{assistant,"c"}]`. -/
theorem merge_joined_amended_witness :
    List.Chain' (fun x y : Message => x.role ≠ y.role)
      (merge_consecutive_messages
        [⟨"user", "a"⟩, ⟨"user", "b"⟩, ⟨"assistant", "c"⟩]) ∧
    contentsJoined (merge_consecutive_messages
        [⟨"user", "a"⟩, ⟨"user", "b"⟩, ⟨"assistant", "c"⟩])
      = contentsJoined [⟨"user", "a"⟩, ⟨"user", "b"⟩, ⟨"assistant", "c"⟩] :=
  merge_joined_amended [⟨"user", "a"⟩, ⟨"user", "b"⟩, ⟨"assistant", "c"⟩]
    (by decide)

/-- Claim C5.  `ClaudeProvider.create_completion` (1) removes the
embedded system message and uses its content as the side-channel
system prompt, falling back to the configured prompt when none is
embedded, (2) merges consecutive same-role messages, and (3) replaces
every empty-content message with a placeholder.
REFUTED: no empty-content replacement happens in this pipeline
(`replace_empty_messages` is never called), and an embedded system
message with empty content is *not* used as the side channel — Python
`extracted or self.system_prompt` falls back on the empty string.  On
`[{system,""}, {user,""}]` with configured prompt `"SP"` the dispatched
request keeps the user message's empty content and uses `"SP"`. -/
theorem claude_empty_content_kept_cex :
    (claudeCreateCompletion "SP" "mdl" 10
        [⟨"system", ""⟩, ⟨"user", ""⟩]).messages = [⟨"user", ""⟩] ∧
    (claudeCreateCompletion "SP" "mdl" 10
        [⟨"system", ""⟩, ⟨"user", ""⟩]).system = "SP" ∧
    ("SP" : String) ≠ "" := by
  decide

/-- Claim C5, amended.  `ClaudeProvider.create_completion` removes all
system-role messages (none is dispatched inline), merges consecutive
same-role messages (no two adjacent dispatched messages share a role,
and the newline-joined content of the non-system remainder is
preserved), and sends as the side-channel system prompt the content of
the last embedded system message when that content is non-empty,
falling back to the provider's configured prompt when no system
message is embedded or its content is empty.  Empty-content messages
are dispatched unchanged — no placeholder substitution occurs. -/
theorem claude_pipeline_amended (sp model : String) (mt : Nat)
    (messages : List Message) :
    (∀ m ∈ (claudeCreateCompletion sp model mt messages).messages,
      m.role ≠ "system") ∧
    List.Chain' (fun x y : Message => x.role ≠ y.role)
      (claudeCreateCompletion sp model mt messages).messages ∧
    ((extract_system_prompt messages).1 ≠ [] →
      contentsJoined (claudeCreateCompletion sp model mt messages).messages
        = contentsJoined (extract_system_prompt messages).1) ∧
    ((extract_system_prompt messages).2 = none →
      (claudeCreateCompletion sp model mt messages).system = sp) ∧
    (∀ s, (extract_system_prompt messages).2 = some s → s ≠ "" →
      (claudeCreateCompletion sp model mt messages).system = s) ∧
    ((extract_system_prompt messages).2 = some "" →
      (claudeCreateCompletion sp model mt messages).system = sp) := by
  refine ⟨?_, ?_, ?_, ?_, ?_, ?_⟩
  · intro m hm
    unfold claudeCreateCompletion at hm
    simp only at hm
    rcases hrem : (extract_system_prompt messages).1 with _ | ⟨a, rest⟩
    · rw [hrem] at hm
      simp [merge_consecutive_messages] at hm
    · rw [hrem] at hm
      rcases mergeAux_roles_subset a rest m hm with h1 | h1
      · rw [h1]
        exact extract_no_system messages a (by rw [hrem]; exact List.mem_cons_self _ _)
      · obtain ⟨y, hy, hyr⟩ := List.mem_map.mp h1
        rw [← hyr]
        exact extract_no_system messages y
          (by rw [hrem]; exact List.mem_cons_of_mem _ hy)
  · unfold claudeCreateCompletion
    simp only
    rcases (extract_system_prompt messages).1 with _ | ⟨a, rest⟩
    · simp [merge_consecutive_messages]
    · exact mergeAux_chain a rest
  · intro hne
    unfold claudeCreateCompletion
    simp only
    rcases hrem : (extract_system_prompt messages).1 with _ | ⟨a, rest⟩
    · exact absurd hrem hne
    · unfold merge_consecutive_messages contentsJoined
      rw [mergeAux_joined, List.map_cons]
  · intro hnone
    simp only [claudeCreateCompletion, hnone]
  · intro s hs hne
    simp only [claudeCreateCompletion, hs]
    simp [hne]
  · intro hsome
    simp only [claudeCreateCompletion, hsome]
    simp

/-- Witness for the amended C5 on
`[{system,"S"}, {user,"x"}, {user,"y"}]` with configured prompt
`"SP"`: the dispatch merges the user run, carries no inline system
message, and uses `"S"` as the side channel. -/
theorem claude_pipeline_amended_witness :
    (∀ m ∈ (claudeCreateCompletion "SP" "mdl" 10
        [⟨"system", "S"⟩, ⟨"user", "x"⟩, ⟨"user", "y"⟩]).messages,
      m.role ≠ "system") ∧
    (claudeCreateCompletion "SP" "mdl" 10
        [⟨"system", "S"⟩, ⟨"user", "x"⟩, ⟨"user", "y"⟩]).system = "S" := by
  have h := claude_pipeline_amended "SP" "mdl" 10
    [⟨"system", "S"⟩, ⟨"user", "x"⟩, ⟨"user", "y"⟩]
  exact ⟨h.1, h.2.2.2.2.1 "S" rfl (by decide)⟩

/-- Claim C3.  When a turn triggers compaction, a summarization
failure — including the not-implemented/unavailable case — leads to
the history being trimmed to `max_history_size` entries.
REFUTED for the not-implemented case: the shipped `__summarise` stub
logs and returns the empty string **normally**, so the success branch
runs.  With `max_history_size = 2` and a two-message prior history the
turn leaves `[{assistant, ""}, {user, "q"}]`, not the trimmed
three-message tail `[{assistant, "m2"}, {user, "q"}]` the claim
predicts. -/
theorem summarise_stub_success_path_cex :
    (commonBody
        { max_tokens := 0, max_history_size := 2, maxModelTokens := 10000,
          max_conversation_age_minutes := 10 }
        (fun _ => 0) summariseStub (fun _ => BackendOutcome.ok "a" 1)
        "user" "assistant" 5 "q" 0
        { conv := fun i => if i = 5 then
            some [⟨"user", "m1"⟩, ⟨"assistant", "m2"⟩] else none,
          lastUpdated := fun _ => none,
          store := fun i => if i = 5 then
            [⟨"user", "m1"⟩, ⟨"assistant", "m2"⟩] else [] }).2.conv 5
      = some [⟨"assistant", ""⟩, ⟨"user", "q"⟩] ∧
    some [(⟨"assistant", ""⟩ : Message), ⟨"user", "q"⟩] ≠
      some (pySliceLast 2
        [⟨"user", "m1"⟩, ⟨"assistant", "m2"⟩, ⟨"user", "q"⟩]) := by
  exact ⟨rfl, by decide⟩

/-- Claim C3, amended.  When a turn triggers compaction: if the
summarization call returns normally (which includes the shipped
not-implemented stub, which returns an empty summary), the history is
cleared and becomes exactly `[one assistant message with the summary,
the current user turn]`, persisted; only if the summarization call
raises is the history instead trimmed to `max_history_size` entries
(without re-saving).  In both branches the turn's outcome is the
handled backend dispatch on the resulting messages — no summarization
error is surfaced to the end user. -/
theorem compaction_branches_amended (cfg : Config)
    (countTokens : List Message → Nat)
    (summarise : List Message → Except String String)
    (backend : List Message → BackendOutcome) (humanRole aiRole : String)
    (chat_id : Int) (query : String) (now : Int) (st : HelperState)
    (ms : List Message)
    (hconv : st.conv chat_id = some ms)
    (hfresh : st.lastUpdated chat_id = none)
    (htrig : countTokens (ms ++ [⟨humanRole, query⟩]) + cfg.max_tokens
        > cfg.maxModelTokens ∨ ms.length + 1 > cfg.max_history_size) :
    (∀ s, summarise ms = Except.ok s →
      (commonBody cfg countTokens summarise backend humanRole aiRole
          chat_id query now st).2.conv chat_id
        = some [⟨aiRole, s⟩, ⟨humanRole, query⟩] ∧
      (commonBody cfg countTokens summarise backend humanRole aiRole
          chat_id query now st).2.store chat_id
        = [⟨aiRole, s⟩, ⟨humanRole, query⟩] ∧
      (commonBody cfg countTokens summarise backend humanRole aiRole
          chat_id query now st).1
        = exceptHandlers (backend [⟨aiRole, s⟩, ⟨humanRole, query⟩])) ∧
    (∀ e, summarise ms = Except.error e →
      (commonBody cfg countTokens summarise backend humanRole aiRole
          chat_id query now st).2.conv chat_id
        = some (pySliceLast cfg.max_history_size (ms ++ [⟨humanRole, query⟩])) ∧
      (commonBody cfg countTokens summarise backend humanRole aiRole
          chat_id query now st).2.store chat_id
        = ms ++ [⟨humanRole, query⟩] ∧
      (commonBody cfg countTokens summarise backend humanRole aiRole
          chat_id query now st).1
        = exceptHandlers (backend
            (pySliceLast cfg.max_history_size (ms ++ [⟨humanRole, query⟩])))) := by
  refine ⟨fun s hs => ?_, fun e he => ?_⟩
  · have htrig2 : cfg.maxModelTokens
        < countTokens (ms ++ [⟨humanRole, query⟩]) + cfg.max_tokens ∨
        cfg.max_history_size < ms.length + 1 := htrig
    simp [commonBody, maxAgeReached, hconv, hfresh, hs, htrig2, convAdd,
      setConv, setStore, reset_conversation, init_conversation, convClear,
      convTrim]
  · have htrig2 : cfg.maxModelTokens
        < countTokens (ms ++ [⟨humanRole, query⟩]) + cfg.max_tokens ∨
        cfg.max_history_size < ms.length + 1 := htrig
    simp [commonBody, maxAgeReached, hconv, hfresh, he, htrig2, convAdd,
      setConv, setStore, reset_conversation, init_conversation, convClear,
      convTrim]

/-- Witness for the amended C3: the success branch with the shipped
stub (`summary = ""`), on a two-message history with
`max_history_size = 2`. -/
theorem compaction_branches_amended_witness :
    (commonBody
        { max_tokens := 0, max_history_size := 2, maxModelTokens := 10000,
          max_conversation_age_minutes := 10 }
        (fun _ => 0) summariseStub (fun _ => BackendOutcome.ok "a" 1)
        "user" "assistant" 5 "q" 0
        { conv := fun i => if i = 5 then
            some [⟨"user", "m1"⟩, ⟨"assistant", "m2"⟩] else none,
          lastUpdated := fun _ => none,
          store := fun i => if i = 5 then
            [⟨"user", "m1"⟩, ⟨"assistant", "m2"⟩] else [] }).2.conv 5
      = some [⟨"assistant", ""⟩, ⟨"user", "q"⟩] ∧
    (commonBody
        { max_tokens := 0, max_history_size := 2, maxModelTokens := 10000,
          max_conversation_age_minutes := 10 }
        (fun _ => 0) summariseStub (fun _ => BackendOutcome.ok "a" 1)
        "user" "assistant" 5 "q" 0
        { conv := fun i => if i = 5 then
            some [⟨"user", "m1"⟩, ⟨"assistant", "m2"⟩] else none,
          lastUpdated := fun _ => none,
          store := fun i => if i = 5 then
            [⟨"user", "m1"⟩, ⟨"assistant", "m2"⟩] else [] }).2.store 5
      = [⟨"assistant", ""⟩, ⟨"user", "q"⟩] := by
  have h := compaction_branches_amended
    { max_tokens := 0, max_history_size := 2, maxModelTokens := 10000,
      max_conversation_age_minutes := 10 }
    (fun _ => 0) summariseStub (fun _ => BackendOutcome.ok "a" 1)
    "user" "assistant" 5 "q" 0
    { conv := fun i => if i = 5 then
        some [⟨"user", "m1"⟩, ⟨"assistant", "m2"⟩] else none,
      lastUpdated := fun _ => none,
      store := fun i => if i = 5 then
        [⟨"user", "m1"⟩, ⟨"assistant", "m2"⟩] else [] }
    [⟨"user", "m1"⟩, ⟨"assistant", "m2"⟩]
    rfl rfl (Or.inr (by decide))
  obtain ⟨hc, hst, _⟩ := h.1 "" rfl
  exact ⟨hc, hst⟩

/-- Claim C6.  A rate-limit error during dispatch is retried with a
fixed 20-unit delay up to 3 total attempts; a success among the first
three attempts is returned with no error surfaced, and three
rate-limited attempts re-raise the rate-limit exception unmodified.
CONFIRMED against the embedded `tenacity` retry semantics
(`reraise=True`, `retry_if_exception_type(RateLimitError)`,
`wait_fixed(20)`, `stop_after_attempt(3)`). -/
theorem rate_limit_retry_confirmed (cfg : Config)
    (countTokens : List Message → Nat)
    (summarise : List Message → Except String String)
    (humanRole aiRole : String) (chat_id : Int) (query : String)
    (now : Int) (st : HelperState) :
    (∀ (backend : Nat → List Message → BackendOutcome) (errs : Nat → String)
        (i : Nat) (a : String) (t : Nat),
      i < retryStopAfterAttempts →
      (∀ j, j < i → ∀ msgs, backend j msgs
        = BackendOutcome.rateLimitError (errs j)) →
      (∀ msgs, backend i msgs = BackendOutcome.ok a t) →
      (get_chat_response cfg countTokens summarise backend humanRole aiRole
          chat_id query now st).1 = AttemptResult.ok a t ∧
      (get_chat_response cfg countTokens summarise backend humanRole aiRole
          chat_id query now st).2.2 = List.replicate i retryWaitUnits) ∧
    (∀ (backend : Nat → List Message → BackendOutcome) (errs : Nat → String),
      (∀ j, j < retryStopAfterAttempts → ∀ msgs, backend j msgs
        = BackendOutcome.rateLimitError (errs j)) →
      (get_chat_response cfg countTokens summarise backend humanRole aiRole
          chat_id query now st).1 = AttemptResult.rateLimited (errs 2) ∧
      (get_chat_response cfg countTokens summarise backend humanRole aiRole
          chat_id query now st).2.2 = [retryWaitUnits, retryWaitUnits]) := by
  constructor
  · intro backend errs i a t hi hprev hok
    obtain ⟨hfst, hdel⟩ := get_chat_response_fst_delays cfg countTokens
      summarise backend humanRole aiRole chat_id query now st
    rw [hfst, hdel]
    have hbodyok : ∀ st', (commonBody cfg countTokens summarise (backend i)
        humanRole aiRole chat_id query now st').1 = AttemptResult.ok a t := by
      intro st'
      rw [commonBody_fst, hok]
      rfl
    have hbodyrl : ∀ j, j < i → ∀ st',
        (commonBody cfg countTokens summarise (backend j)
          humanRole aiRole chat_id query now st').1
          = AttemptResult.rateLimited (errs j) := by
      intro j hj st'
      rw [commonBody_fst, hprev j hj]
      rfl
    have hi3 : i < 3 := hi
    interval_cases i
    · rw [show retryStopAfterAttempts = 2 + 1 from rfl,
        retryLoop_done _ 0 2 st (by rw [hbodyok st]; simp)]
      exact ⟨hbodyok st, rfl⟩
    · rw [show retryStopAfterAttempts = 2 + 1 from rfl,
        retryLoop_retry _ 0 2 st (errs 0) (hbodyrl 0 (by omega) st) (by omega),
        show (2 : Nat) = 1 + 1 from rfl,
        retryLoop_done _ 1 1 _ (by rw [hbodyok]; simp)]
      exact ⟨hbodyok _, rfl⟩
    · rw [show retryStopAfterAttempts = 2 + 1 from rfl,
        retryLoop_retry _ 0 2 st (errs 0) (hbodyrl 0 (by omega) st) (by omega),
        show (2 : Nat) = 1 + 1 from rfl,
        retryLoop_retry _ 1 1 _ (errs 1) (hbodyrl 1 (by omega) _) (by omega),
        show (1 : Nat) = 0 + 1 from rfl,
        retryLoop_done _ 2 0 _ (by rw [hbodyok]; simp)]
      exact ⟨hbodyok _, rfl⟩
  · intro backend errs hall
    obtain ⟨hfst, hdel⟩ := get_chat_response_fst_delays cfg countTokens
      summarise backend humanRole aiRole chat_id query now st
    rw [hfst, hdel]
    have hbodyrl : ∀ j, j < 3 → ∀ st',
        (commonBody cfg countTokens summarise (backend j)
          humanRole aiRole chat_id query now st').1
          = AttemptResult.rateLimited (errs j) := by
      intro j hj st'
      rw [commonBody_fst, hall j hj]
      rfl
    rw [show retryStopAfterAttempts = 2 + 1 from rfl,
      retryLoop_retry _ 0 2 st (errs 0) (hbodyrl 0 (by omega) st) (by omega),
      show (2 : Nat) = 1 + 1 from rfl,
      retryLoop_retry _ 1 1 _ (errs 1) (hbodyrl 1 (by omega) _) (by omega),
      retryLoop_exhausted _ 2 _ (errs 2) (hbodyrl 2 (by omega) _)]
    exact ⟨rfl, rfl⟩

/-- Witness for C6: a backend that is rate-limited on attempts 0 and 1
and succeeds on attempt 2 yields the success after two 20-unit
sleeps. -/
theorem rate_limit_retry_confirmed_witness :
    (get_chat_response
        { max_tokens := 10, max_history_size := 100, maxModelTokens := 10000,
          max_conversation_age_minutes := 10 }
        (fun _ => 0) summariseStub
        (fun i _ => if i < 2 then BackendOutcome.rateLimitError "rl"
          else BackendOutcome.ok "ans" 7)
        "user" "assistant" 1 "q" 0
        { conv := fun i => if i = 1 then some [⟨"user", "old"⟩] else none,
          lastUpdated := fun _ => none,
          store := fun i => if i = 1 then [⟨"user", "old"⟩] else [] }).1
      = AttemptResult.ok "ans" 7 ∧
    (get_chat_response
        { max_tokens := 10, max_history_size := 100, maxModelTokens := 10000,
          max_conversation_age_minutes := 10 }
        (fun _ => 0) summariseStub
        (fun i _ => if i < 2 then BackendOutcome.rateLimitError "rl"
          else BackendOutcome.ok "ans" 7)
        "user" "assistant" 1 "q" 0
        { conv := fun i => if i = 1 then some [⟨"user", "old"⟩] else none,
          lastUpdated := fun _ => none,
          store := fun i => if i = 1 then [⟨"user", "old"⟩] else [] }).2.2
      = List.replicate 2 retryWaitUnits :=
  (rate_limit_retry_confirmed
    { max_tokens := 10, max_history_size := 100, maxModelTokens := 10000,
      max_conversation_age_minutes := 10 }
    (fun _ => 0) summariseStub "user" "assistant" 1 "q" 0
    { conv := fun i => if i = 1 then some [⟨"user", "old"⟩] else none,
      lastUpdated := fun _ => none,
      store := fun i => if i = 1 then [⟨"user", "old"⟩] else [] }).1
    (fun i _ => if i < 2 then BackendOutcome.rateLimitError "rl"
      else BackendOutcome.ok "ans" 7)
    (fun _ => "rl") 2 "ans" 7 (by decide)
    (fun j hj msgs => by simp [hj])
    (fun msgs => by simp)

/-- Claim C10.  If the backend completion call fails (after all
retries) during a turn, `get_chat_response` does not succeed, yet the
user message appended at the start of the turn remains the last
in-memory message and the persisted conversation equals the in-memory
one (no rollback).  CONFIRMED: every attempt ends after the appending
`add` (which saves); with the shipped summariser stub every compaction
path also re-saves, so the failed dispatch leaves memory and store in
agreement, both containing the user turn last. -/
theorem no_rollback_on_failure (cfg : Config)
    (countTokens : List Message → Nat)
    (backend : Nat → List Message → BackendOutcome)
    (humanRole aiRole : String) (chat_id : Int) (query : String)
    (now : Int) (st : HelperState)
    (hfail : ∀ i msgs a t, backend i msgs ≠ BackendOutcome.ok a t) :
    (∀ a t, (get_chat_response cfg countTokens summariseStub backend humanRole
        aiRole chat_id query now st).1 ≠ AttemptResult.ok a t) ∧
    (((get_chat_response cfg countTokens summariseStub backend humanRole
        aiRole chat_id query now st).2.1.conv chat_id).getD []).getLast?
      = some ⟨humanRole, query⟩ ∧
    (get_chat_response cfg countTokens summariseStub backend humanRole
        aiRole chat_id query now st).2.1.store chat_id
      = ((get_chat_response cfg countTokens summariseStub backend humanRole
          aiRole chat_id query now st).2.1.conv chat_id).getD [] := by
  obtain ⟨j, stj, h1, h2⟩ := retryLoop_exists_attempt
    (fun i s => commonBody cfg countTokens summariseStub (backend i)
      humanRole aiRole chat_id query now s) retryStopAfterAttempts 0 st
  have hnotok : ∀ a t,
      (retryLoop (fun i s => commonBody cfg countTokens summariseStub
        (backend i) humanRole aiRole chat_id query now s)
        0 retryStopAfterAttempts st).1 ≠ AttemptResult.ok a t := by
    rw [h1, commonBody_fst]
    exact exceptHandlers_not_ok _ (fun a t => hfail j _ a t)
  have hpost := commonBody_post cfg countTokens (backend j) humanRole aiRole
    chat_id query now stj
  rcases hr : (retryLoop (fun i s => commonBody cfg countTokens summariseStub
      (backend i) humanRole aiRole chat_id query now s)
      0 retryStopAfterAttempts st).1 with ⟨a, t⟩ | ⟨e⟩ | ⟨k, m⟩
  · exact absurd hr (hnotok a t)
  · refine ⟨?_, ?_, ?_⟩
    · simp only [get_chat_response, hr]
      simp
    · simp only [get_chat_response, hr, h2]
      exact hpost.1
    · simp only [get_chat_response, hr, h2]
      exact hpost.2
  · refine ⟨?_, ?_, ?_⟩
    · simp only [get_chat_response, hr]
      simp
    · simp only [get_chat_response, hr, h2]
      exact hpost.1
    · simp only [get_chat_response, hr, h2]
      exact hpost.2

/-- Witness for C10: a backend that always raises a generic error
leaves the persisted and in-memory conversation equal, ending in the
appended user turn, and the turn does not succeed. -/
theorem no_rollback_on_failure_witness :
    (get_chat_response
        { max_tokens := 10, max_history_size := 100, maxModelTokens := 10000,
          max_conversation_age_minutes := 10 }
        (fun _ => 0) summariseStub (fun _ _ => BackendOutcome.otherError "boom")
        "user" "assistant" 1 "q" 0
        { conv := fun i => if i = 1 then some [⟨"user", "old"⟩] else none,
          lastUpdated := fun _ => none,
          store := fun i => if i = 1 then [⟨"user", "old"⟩] else [] }).1
      ≠ AttemptResult.ok "hi" 5 ∧
    (((get_chat_response
        { max_tokens := 10, max_history_size := 100, maxModelTokens := 10000,
          max_conversation_age_minutes := 10 }
        (fun _ => 0) summariseStub (fun _ _ => BackendOutcome.otherError "boom")
        "user" "assistant" 1 "q" 0
        { conv := fun i => if i = 1 then some [⟨"user", "old"⟩] else none,
          lastUpdated := fun _ => none,
          store := fun i => if i = 1 then [⟨"user", "old"⟩] else [] }).2.1.conv 1).getD
        []).getLast? = some ⟨"user", "q"⟩ ∧
    (get_chat_response
        { max_tokens := 10, max_history_size := 100, maxModelTokens := 10000,
          max_conversation_age_minutes := 10 }
        (fun _ => 0) summariseStub (fun _ _ => BackendOutcome.otherError "boom")
        "user" "assistant" 1 "q" 0
        { conv := fun i => if i = 1 then some [⟨"user", "old"⟩] else none,
          lastUpdated := fun _ => none,
          store := fun i => if i = 1 then [⟨"user", "old"⟩] else [] }).2.1.store 1
      = ((get_chat_response
          { max_tokens := 10, max_history_size := 100, maxModelTokens := 10000,
            max_conversation_age_minutes := 10 }
          (fun _ => 0) summariseStub (fun _ _ => BackendOutcome.otherError "boom")
          "user" "assistant" 1 "q" 0
          { conv := fun i => if i = 1 then some [⟨"user", "old"⟩] else none,
            lastUpdated := fun _ => none,
            store := fun i => if i = 1 then [⟨"user", "old"⟩] else [] }).2.1.conv 1).getD
        [] := by
  have h := no_rollback_on_failure
    { max_tokens := 10, max_history_size := 100, maxModelTokens := 10000,
      max_conversation_age_minutes := 10 }
    (fun _ => 0) (fun _ _ => BackendOutcome.otherError "boom")
    "user" "assistant" 1 "q" 0
    { conv := fun i => if i = 1 then some [⟨"user", "old"⟩] else none,
      lastUpdated := fun _ => none,
      store := fun i => if i = 1 then [⟨"user", "old"⟩] else [] }
    (fun _ _ a t hc => BackendOutcome.noConfusion hc)
  exact ⟨h.1 "hi" 5, h.2.1, h.2.2⟩

end ElevateBot
